import Mathlib

/-!
Verification of the charts-agent browser client's orchestration core
(`src/charts_agent/frontend/src/App.tsx`) and its slot-assignment algorithm
(`src/charts_agent/frontend/src/components/ChartGrid.tsx`), together with the
manual-chart controls gate (`ChartControls.tsx`) and the dataset preview cap
(`DataPreview.tsx`).

The TypeScript handlers are embedded as pure state transformers: each React
`useState` cell becomes a field of `AppState`, and an asynchronous collaborator
call is modelled by passing the call's eventual outcome (`Except` of an error
message or the parsed response) as an explicit argument, so a handler function
describes the complete run of the corresponding event handler from invocation
to settlement.
-/

namespace ChartsAgent

/-- A JSON scalar as it appears in preview rows and column samples
(`types.ts`: `string | number | boolean | null`). Numbers are modelled as
integers; no claim depends on numeric values. -/
inductive Scalar where
  | str (s : String)
  | num (n : Int)
  | bool (b : Bool)
  | null
deriving DecidableEq

/-- `types.ts` `PreviewRow`: a mapping from column name to a scalar. -/
abbrev PreviewRow := List (String × Scalar)

/-- `types.ts` `ColumnSummary`. -/
structure ColumnSummary where
  name : String
  dtype : String
  non_null : Nat
  sample_values : List Scalar
deriving DecidableEq

/-- One entry of the embedded ECharts configuration's `series` array, as read
by `ChartGrid.normalizeType`: only whether the entry carries a string-valued
`type` field (and which string) is observable there, so that is all we model.
`type := none` covers both a missing `type` field and a non-string one. -/
structure SeriesEntry where
  type : Option String
deriving DecidableEq

/-- `types.ts` `ChartIdea`. The opaque ECharts `option` object is modelled by
the one part the client inspects: its `series` array (empty when `option` has
no array-valued `series`). `chart_type := none` models a runtime-absent field;
JavaScript treats an empty string the same as an absent one (falsy), which the
resolution function below reflects. -/
structure ChartIdea where
  title : String
  description : String
  chart_type : Option String
  series : List SeriesEntry
deriving DecidableEq

/-- `types.ts` `Message.role`. -/
inductive Role where
  | user
  | assistant
deriving DecidableEq

/-- `types.ts` `Message`. -/
structure Message where
  role : Role
  content : String
deriving DecidableEq

/-- `types.ts` `ManualChartRequest.chartType`. -/
inductive ChartType where
  | bar
  | line
  | pie
deriving DecidableEq

/-- `types.ts` `ChartAggregation`. -/
inductive ChartAggregation where
  | count
  | sum
  | mean
deriving DecidableEq

/-- `types.ts` `ManualChartRequest`; optional fields become `Option`. -/
structure ManualChartRequest where
  chartType : ChartType
  groupBy : Option String
  value : Option String
  agg : Option ChartAggregation
deriving DecidableEq

/-- Result of `api.uploadDataset` as consumed by `App.handleUpload`; `api.ts`
already coalesces missing `columns`/`preview` to `[]`, so they are plain
lists here. -/
structure UploadResponse where
  sessionId : String
  columns : List ColumnSummary
  preview : List PreviewRow
deriving DecidableEq

/-- `types.ts` `ChatResponse`. `App.handleSendMessage` guards its `charts` and
`history` with `?? []`, so a runtime-null/absent field is representable:
`none` models it. -/
structure ChatResponse where
  reply : String
  charts : Option (List ChartIdea)
  history : Option (List Message)
deriving DecidableEq

/-- `types.ts` `ManualChartResponse`, restricted to the fields
`App.handleBuildManualChart` reads (`charts ?? []`, `message ?? ...`). -/
structure ManualChartResponse where
  message : Option String
  charts : Option (List ChartIdea)
deriving DecidableEq

/-- The `App` component's `useState` cells. -/
structure AppState where
  sessionId : Option String
  columns : List ColumnSummary
  preview : List PreviewRow
  charts : List ChartIdea
  history : List Message
  uploading : Bool
  chatLoading : Bool
  manualLoading : Bool
  status : String
  error : Option String
deriving DecidableEq

/-! ### Orchestrator handlers (`App.tsx`) -/

/-- `App.handleUpload`, the complete run: the pre-try writes
(`setUploading(true)`, `setError(null)`, `setStatus(...)`) composed with the
success or catch branch and the `finally { setUploading(false) }`. -/
def handleUpload (st : AppState) (result : Except String UploadResponse) :
    AppState :=
  match result with
  | .ok r =>
    { st with sessionId := some r.sessionId, columns := r.columns,
              preview := r.preview, charts := [], history := [],
              status := "Dataset loaded. Ask the agent for insights.",
              error := none, uploading := false }
  | .error e =>
    { st with error := some e,
              status := "Upload failed. Please try another file.",
              uploading := false }

/-- The synchronous prefix of `App.handleSendMessage` once the session guard
has passed: the writes performed before the `sendChat` call resolves,
including the optimistic append of the user message. -/
def sendMessageBegin (st : AppState) (message : String) : AppState :=
  { st with chatLoading := true, error := none,
            status := "Agent is exploring the dataset...",
            history := st.history ++ [{ role := Role.user, content := message }] }

/-- The settlement of `App.handleSendMessage`: the `then`/`catch` branch on the
`sendChat` outcome plus the `finally { setChatLoading(false) }`. On failure
the optimistic entry is popped via `prev.slice(0, -1)` (= `dropLast`). -/
def sendMessageSettle (st : AppState) :
    Except String ChatResponse → AppState
  | .ok r =>
    { st with charts := r.charts.getD [], history := r.history.getD [],
              status := "Charts updated. Ask another question to refine.",
              chatLoading := false }
  | .error e =>
    { st with history := st.history.dropLast, error := some e,
              status := "Agent error. Try sending your message again.",
              chatLoading := false }

/-- `App.handleSendMessage`, the complete run, with the eventual `sendChat`
outcome passed explicitly. Without a session it only sets the error. -/
def handleSendMessage (st : AppState) (message : String)
    (response : Except String ChatResponse) : AppState :=
  match st.sessionId with
  | none => { st with error := some "Upload a dataset before chatting with the agent." }
  | some _ => sendMessageSettle (sendMessageBegin st message) response

/-- The network call issued by `App.handleBuildManualChart`: the only guard
before `buildManualChart(sessionId, payload)` is the session check, so with an
active session the request (session id and the payload, forwarded verbatim) is
always issued, whatever the payload contains. -/
def manualChartNetworkCall (st : AppState) (payload : ManualChartRequest) :
    Option (String × ManualChartRequest) :=
  match st.sessionId with
  | none => none
  | some sid => some (sid, payload)

/-- `App.handleBuildManualChart`, the complete run, with the eventual
`buildManualChart` outcome passed explicitly. -/
def handleBuildManualChart (st : AppState) (_payload : ManualChartRequest)
    (response : Except String ManualChartResponse) : AppState :=
  match st.sessionId with
  | none => { st with error := some "Upload a dataset before building charts." }
  | some _ =>
    match response with
    | .ok r =>
      { st with charts := r.charts.getD [],
                status := r.message.getD "Chart updated.",
                error := none, manualLoading := false }
    | .error e =>
      { st with error := some e,
                status := "Manual chart failed. Adjust selections and retry.",
                manualLoading := false }

/-! ### Slot assignment (`ChartGrid.tsx`) -/

/-- JavaScript `s.toLowerCase()`: lower-case the string character by
character (stated over the string's character data so that it reduces in the
kernel; it agrees with `String.toLower`). -/
def toLowerStr (s : String) : String :=
  ⟨s.data.map Char.toLower⟩

/-- JavaScript `s.includes(pat)`: `pat` occurs in `s` as a contiguous
substring (always true for the empty pattern). -/
def strIncludes (s pat : String) : Bool :=
  decide (pat.toList <:+: s.toList)

/-- The series fallback of `ChartGrid.normalizeType`: the `type` of the first
series entry whose `type` is a string, lower-cased, or `""`
(`firstType?.toLowerCase() ?? ""`). -/
def seriesTypeOrEmpty (c : ChartIdea) : String :=
  match (c.series.find? fun e => e.type.isSome).bind (fun e => e.type) with
  | some t => toLowerStr t
  | none => ""

/-- `ChartGrid.normalizeType`. The guard `if (chart.chart_type)` is a JS
truthiness test, false both for an absent field and for `""`. -/
def normalizeType (chart : Option ChartIdea) : String :=
  match chart with
  | none => ""
  | some c =>
    match c.chart_type with
    | some s => if s = "" then seriesTypeOrEmpty c else toLowerStr s
    | none => seriesTypeOrEmpty c

/-- The match test of `ChartGrid.claimChart`'s loop body:
`normalizeType(remaining[i]).includes(expectedType)`. -/
def chartMatches (expectedType : String) (c : ChartIdea) : Bool :=
  strIncludes (normalizeType (some c)) expectedType

/-- The loop of `ChartGrid.claimChart` for a non-null expected type: scan
`remaining` from index `length - 1` down to `0` and splice out the first
match found. Structurally: a match in the tail wins over one at the head.
Returns the claimed chart (if any) and the remaining working list. -/
def claimLast (expectedType : String) :
    List ChartIdea → Option ChartIdea × List ChartIdea
  | [] => (none, [])
  | c :: rest =>
    match claimLast expectedType rest with
    | (some found, rest') => (some found, c :: rest')
    | (none, _) =>
      if chartMatches expectedType c then (some c, rest)
      else (none, c :: rest)

/-- `ChartGrid.claimChart`: with a null expected type `remaining.shift()`,
otherwise the backwards scan `claimLast`. -/
def claimChart (expectedType : Option String) (remaining : List ChartIdea) :
    Option ChartIdea × List ChartIdea :=
  match expectedType with
  | none =>
    match remaining with
    | [] => (none, [])
    | c :: rest => (some c, rest)
  | some t => claimLast t remaining

/-- `ChartGrid.preferredSlots` entries. -/
structure SlotSpec where
  expectedType : Option String
  label : String
deriving DecidableEq

/-- `ChartGrid.preferredSlots` (the null-typed overflow slots are commented
out in the source). -/
def preferredSlots : List SlotSpec :=
  [⟨some "bar", "Bar chart"⟩, ⟨some "line", "Line chart"⟩,
   ⟨some "pie", "Pie chart"⟩]

/-- The `preferredSlots.map(slot => ({chart: claimChart(...), ...}))` loop of
`ChartGrid`: `claimChart` mutates the shared `remaining` list, so the map is a
state-threading fold. Entries of the working list never claimed by any slot
are dropped. -/
def assignSlots :
    List SlotSpec → List ChartIdea → List (Option ChartIdea × Option String)
  | [], _ => []
  | s :: ss, rem =>
    ((claimChart s.expectedType rem).fst, s.expectedType) ::
      assignSlots ss (claimChart s.expectedType rem).snd

/-- The slot list rendered by `ChartGrid` for a chart collection:
`remaining` starts as a copy of `charts`. -/
def chartGridSlots (charts : List ChartIdea) :
    List (Option ChartIdea × Option String) :=
  assignSlots preferredSlots charts

/-- Spec reading of one claiming step: the claimed entry is the last entry of
the working list (scanning from the end toward the start) whose resolved kind
contains the expected kind as a substring, and it is removed from the working
list; with no match the list is unchanged. Stated via `reverse`: the first
match of the reversed list is the last match of the list. -/
def claimLastFromEnd (expectedType : String) (l : List ChartIdea) :
    Option ChartIdea × List ChartIdea :=
  (l.reverse.find? (chartMatches expectedType),
   (l.reverse.eraseP (chartMatches expectedType)).reverse)

/-- The fixed expected kinds, in slot order. -/
def slotKinds : List String := ["bar", "line", "pie"]

/-- Spec reading of the whole assignment: fill the expected-kind slots in
order, each claiming by `claimLastFromEnd`, threading the shrinking working
list; entries never claimed are discarded (no further slots exist). -/
def assignSlotsSpec :
    List String → List ChartIdea → List (Option ChartIdea × Option String)
  | [], _ => []
  | k :: ks, rem =>
    ((claimLastFromEnd k rem).fst, some k) ::
      assignSlotsSpec ks (claimLastFromEnd k rem).snd

/-! ### Manual-chart controls (`ChartControls.tsx`) -/

/-- The `ChartControls` component's `useState` cells plus its `disabled` and
`loading` props. `groupBy`/`value` hold `""` when no column is selected, as in
the source. -/
structure ChartControlsState where
  chartType : ChartType
  groupBy : String
  value : String
  agg : ChartAggregation
  disabled : Bool
  loading : Bool
deriving DecidableEq

/-- `ChartControls`: `const requiresValue = agg !== "count"`. -/
def requiresValue (agg : ChartAggregation) : Bool :=
  agg ≠ ChartAggregation.count

/-- `ChartControls`: `ready = Boolean(groupBy) && (!requiresValue ||
Boolean(value)) && !disabled`. -/
def ready (s : ChartControlsState) : Bool :=
  (s.groupBy ≠ "" : Bool) && (!requiresValue s.agg || (s.value ≠ "" : Bool))
    && !s.disabled

/-- `ChartControls.handleSubmit`: bail out without a group column, otherwise
emit the payload passed to `onBuild` (`value` is sent only when the
aggregation requires it). -/
def handleSubmit (s : ChartControlsState) : Option ManualChartRequest :=
  if s.groupBy = "" then none
  else some { chartType := s.chartType, groupBy := some s.groupBy,
              value := if requiresValue s.agg then some s.value else none,
              agg := some s.agg }

/-- The build request a user can emit through the `ChartControls` UI: the
submit button carries `disabled={!ready || loading}`, so `handleSubmit` only
runs when `ready` holds and no build is in flight. -/
def submitViaButton (s : ChartControlsState) : Option ManualChartRequest :=
  if ready s && !s.loading then handleSubmit s else none

/-! ### Dataset preview (`DataPreview.tsx`) -/

/-- `DataPreview`: `const visiblePreview = preview.slice(0, 8)`. -/
def visiblePreview (preview : List PreviewRow) : List PreviewRow :=
  preview.take 8

/-! ### Concrete fixtures used by scenario parts and witnesses -/

/-- A chart idea of explicit kind `line`. -/
def lineIdea : ChartIdea :=
  { title := "Line chart one", description := "", chart_type := some "line",
    series := [] }

/-- The first chart idea of explicit kind `bar`. -/
def barIdea1 : ChartIdea :=
  { title := "Bar chart one", description := "", chart_type := some "bar",
    series := [] }

/-- The second chart idea of explicit kind `bar`. -/
def barIdea2 : ChartIdea :=
  { title := "Bar chart two", description := "", chart_type := some "bar",
    series := [] }

/-- A concrete app state with an active session, a non-empty transcript and a
non-empty chart collection. -/
def stW : AppState :=
  { sessionId := some "sess-1",
    columns := [{ name := "region", dtype := "object", non_null := 4,
                  sample_values := [Scalar.str "east"] }],
    preview := [[("region", Scalar.str "east")]],
    charts := [barIdea1],
    history := [{ role := Role.assistant, content := "hello" }],
    uploading := false, chatLoading := false, manualLoading := false,
    status := "Dataset loaded. Ask the agent for insights.",
    error := none }

/-- A manual-chart payload with aggregation `sum` and no value column. -/
def sumNoValuePayload : ManualChartRequest :=
  { chartType := ChartType.bar, groupBy := some "region", value := none,
    agg := some ChartAggregation.sum }

/-! ### Helper lemmas -/

/-- One claiming step of `ChartGrid.claimChart`'s backwards scan agrees with
the "last matching entry" reading: it claims the last matching entry of the
working list and removes exactly that entry. -/
theorem claimLast_eq_fromEnd (t : String) (l : List ChartIdea) :
    claimLast t l = claimLastFromEnd t l := by
  induction l with
  | nil => rfl
  | cons c rest ih =>
    rcases h : rest.reverse.find? (chartMatches t) with _ | f
    · have hnot : ∀ b ∈ rest.reverse, ¬ chartMatches t b = true :=
        List.find?_eq_none.mp h
      by_cases hp : chartMatches t c = true
      · simp [claimLast, ih, claimLastFromEnd, h, hp, List.find?_append,
              List.eraseP_append_right _ hnot, List.find?_cons,
              List.eraseP_cons]
      · simp [claimLast, ih, claimLastFromEnd, h, hp, List.find?_append,
              List.eraseP_append_right _ hnot, List.find?_cons,
              List.eraseP_cons, List.reverse_append]
    · have hpf : chartMatches t f = true := List.find?_some h
      have hmem : f ∈ rest.reverse := List.mem_of_find?_eq_some h
      simp [claimLast, ih, claimLastFromEnd, h, List.find?_append,
            List.eraseP_append_left hpf _ hmem, List.reverse_append]

/-! ### Claim theorems -/

/-- C1: the slot-assignment algorithm fills the fixed expected-kind slots
`[bar, line, pie]` in that order; for each expected kind it claims the last
entry of the working list (scanning from the end toward the start) whose
resolved kind contains the expected kind as a substring, removing it from
further consideration, and entries never claimed are discarded. On the input
order `[line, bar, bar]` the bar slot gets the third chart, the line slot the
first chart, the pie slot stays empty, and the second chart is discarded. -/
theorem chartGrid_slot_assignment :
    (∀ (t : String) (l : List ChartIdea),
        claimChart (some t) l = claimLastFromEnd t l) ∧
    (∀ charts : List ChartIdea,
        chartGridSlots charts = assignSlotsSpec slotKinds charts) ∧
    chartGridSlots [lineIdea, barIdea1, barIdea2] =
      [(some barIdea2, some "bar"), (some lineIdea, some "line"),
       (none, some "pie")] := by
  refine ⟨fun t l => claimLast_eq_fromEnd t l, fun charts => ?_, by decide⟩
  simp [chartGridSlots, preferredSlots, assignSlots, assignSlotsSpec,
        slotKinds, claimChart, claimLast_eq_fromEnd]

/-- C2: kind resolution returns the lower-cased `chart_type` when that field
is present (JS-truthy, i.e. non-empty); otherwise the lower-cased `type` of
the first series entry of the embedded configuration that carries a string
`type` field; and the empty string when neither exists. -/
theorem normalizeType_kind_resolution :
    (∀ (c : ChartIdea) (s : String), c.chart_type = some s → s ≠ "" →
        normalizeType (some c) = toLowerStr s) ∧
    (∀ (c : ChartIdea) (e : SeriesEntry) (t : String),
        (c.chart_type = none ∨ c.chart_type = some "") →
        (c.series.find? fun x => x.type.isSome) = some e → e.type = some t →
        normalizeType (some c) = toLowerStr t) ∧
    (∀ c : ChartIdea,
        (c.chart_type = none ∨ c.chart_type = some "") →
        (c.series.find? fun x => x.type.isSome) = none →
        normalizeType (some c) = "") := by
  refine ⟨?_, ?_, ?_⟩
  · intro c s hcs hne
    simp [normalizeType, hcs, hne]
  · intro c e t hct hfind het
    rcases hct with h | h <;>
      simp [normalizeType, seriesTypeOrEmpty, h, hfind, het]
  · intro c hct hfind
    rcases hct with h | h <;>
      simp [normalizeType, seriesTypeOrEmpty, h, hfind]

/-- Witness for C2 at three concrete chart ideas: explicit kind `"Bar"`,
kind inferred from the second series entry (the first carrying a string
`type`), and no kind anywhere. -/
theorem normalizeType_kind_resolution_witness :
    normalizeType (some ⟨"A", "", some "Bar", []⟩) = toLowerStr "Bar" ∧
    normalizeType (some ⟨"B", "", none, [⟨none⟩, ⟨some "Line"⟩]⟩) =
      toLowerStr "Line" ∧
    normalizeType (some ⟨"C", "", none, [⟨none⟩]⟩) = "" :=
  ⟨normalizeType_kind_resolution.1 ⟨"A", "", some "Bar", []⟩ "Bar" rfl
      (by decide),
   normalizeType_kind_resolution.2.1 ⟨"B", "", none, [⟨none⟩, ⟨some "Line"⟩]⟩
      ⟨some "Line"⟩ "Line" (Or.inl rfl) (by decide) rfl,
   normalizeType_kind_resolution.2.2 ⟨"C", "", none, [⟨none⟩]⟩ (Or.inl rfl)
      (by decide)⟩

/-- C3: with an active session, when the chat call fails the transcript after
the failure equals the transcript before `sendMessage` was called — the
optimistically appended user entry (exactly the last element) is removed and
nothing else changes — and the chart collection is untouched. -/
theorem sendMessage_failure_rolls_back (st : AppState) (msg e : String)
    (h : st.sessionId.isSome) :
    (handleSendMessage st msg (Except.error e)).history = st.history ∧
    (handleSendMessage st msg (Except.error e)).charts = st.charts ∧
    (sendMessageBegin st msg).history =
      st.history ++ [{ role := Role.user, content := msg }] := by
  rcases hsid : st.sessionId with _ | sid
  · rw [hsid] at h; simp at h
  · refine ⟨?_, ?_, rfl⟩ <;>
      simp [handleSendMessage, hsid, sendMessageBegin, sendMessageSettle,
            List.dropLast_concat]

/-- Witness for C3 at a concrete state with a non-empty transcript. -/
theorem sendMessage_failure_rolls_back_witness :
    (handleSendMessage stW "q" (Except.error "boom")).history = stW.history ∧
    (handleSendMessage stW "q" (Except.error "boom")).charts = stW.charts ∧
    (sendMessageBegin stW "q").history =
      stW.history ++ [{ role := Role.user, content := "q" }] :=
  sendMessage_failure_rolls_back stW "q" "boom" rfl

/-- C4: with an active session, after a successful chat call the transcript
and the chart collection equal exactly the collaborator's returned values,
whatever the prior local state was — no merging occurs. -/
theorem sendMessage_success_replaces (st : AppState) (msg reply : String)
    (cs : List ChartIdea) (hs : List Message) (h : st.sessionId.isSome) :
    (handleSendMessage st msg (Except.ok ⟨reply, some cs, some hs⟩)).charts
        = cs ∧
    (handleSendMessage st msg (Except.ok ⟨reply, some cs, some hs⟩)).history
        = hs := by
  rcases hsid : st.sessionId with _ | sid
  · rw [hsid] at h; simp at h
  · constructor <;>
      simp [handleSendMessage, hsid, sendMessageBegin, sendMessageSettle]

/-- Witness for C4: the non-empty prior transcript and charts of `stW` are
wholesale replaced by the collaborator's values. -/
theorem sendMessage_success_replaces_witness :
    (handleSendMessage stW "q"
        (Except.ok ⟨"r", some [lineIdea], some []⟩)).charts = [lineIdea] ∧
    (handleSendMessage stW "q"
        (Except.ok ⟨"r", some [lineIdea], some []⟩)).history = [] :=
  sendMessage_success_replaces stW "q" "r" [lineIdea] [] rfl

/-- C5: for every prior state, a successful upload installs the new session
identifier, column summaries and preview, and unconditionally resets the
chart collection and the transcript to empty. -/
theorem upload_success_resets (st : AppState) (r : UploadResponse) :
    (handleUpload st (Except.ok r)).sessionId = some r.sessionId ∧
    (handleUpload st (Except.ok r)).columns = r.columns ∧
    (handleUpload st (Except.ok r)).preview = r.preview ∧
    (handleUpload st (Except.ok r)).charts = [] ∧
    (handleUpload st (Except.ok r)).history = [] :=
  ⟨rfl, rfl, rfl, rfl, rfl⟩

/-- C6: for every prior state, a failed upload leaves the session identifier,
column summaries, preview, chart collection and transcript unchanged; only
the error and status messages are surfaced. -/
theorem upload_failure_preserves_state (st : AppState) (e : String) :
    (handleUpload st (Except.error e)).sessionId = st.sessionId ∧
    (handleUpload st (Except.error e)).columns = st.columns ∧
    (handleUpload st (Except.error e)).preview = st.preview ∧
    (handleUpload st (Except.error e)).charts = st.charts ∧
    (handleUpload st (Except.error e)).history = st.history ∧
    (handleUpload st (Except.error e)).error = some e ∧
    (handleUpload st (Except.error e)).status =
      "Upload failed. Please try another file." :=
  ⟨rfl, rfl, rfl, rfl, rfl, rfl, rfl⟩

/-- C7 counterexample: the orchestrator operation itself performs no
value-column validation — at a concrete active-session state and a payload
with aggregation `sum` and no value column, `handleBuildManualChart` still
issues the network call (forwarding the payload verbatim) instead of failing
with a precondition error beforehand. -/
theorem manualChart_orchestrator_skips_value_validation :
    sumNoValuePayload.agg ≠ some ChartAggregation.count ∧
    sumNoValuePayload.value = none ∧
    manualChartNetworkCall stW sumNoValuePayload =
      some ("sess-1", sumNoValuePayload) := by
  refine ⟨by decide, rfl, rfl⟩

/-- C7 amended: the agg/value precondition is enforced by the `ChartControls`
submission gate, not by the orchestrator operation: when the aggregation
requires a value column and none is selected, the build button is disabled
(`ready` is false) so no build request is emitted and no network call occurs;
with aggregation `count` and no value column (a grouping column chosen, the
controls enabled and idle) the gate passes and the request is emitted with no
value column. -/
theorem manualChart_value_precondition_in_controls (s : ChartControlsState) :
    (requiresValue s.agg = true → s.value = "" → submitViaButton s = none) ∧
    (s.agg = ChartAggregation.count → s.groupBy ≠ "" → s.disabled = false →
        s.loading = false →
        submitViaButton s =
          some { chartType := s.chartType, groupBy := some s.groupBy,
                 value := none, agg := some ChartAggregation.count }) := by
  constructor
  · intro hreq hval
    simp [submitViaButton, ready, hreq, hval]
  · intro hagg hgb hdis hload
    simp [submitViaButton, ready, handleSubmit, requiresValue, hagg, hgb,
          hdis, hload]

/-- Witness for the amended C7: a `sum`-with-no-value state emits nothing,
while a `count`-with-no-value state emits the request. -/
theorem manualChart_value_precondition_in_controls_witness :
    submitViaButton
        { chartType := ChartType.bar, groupBy := "region", value := "",
          agg := ChartAggregation.sum, disabled := false, loading := false }
      = none ∧
    submitViaButton
        { chartType := ChartType.pie, groupBy := "region", value := "",
          agg := ChartAggregation.count, disabled := false, loading := false }
      = some { chartType := ChartType.pie, groupBy := some "region",
               value := none, agg := some ChartAggregation.count } :=
  ⟨(manualChart_value_precondition_in_controls _).1 (by decide) rfl,
   (manualChart_value_precondition_in_controls _).2 rfl (by decide) rfl rfl⟩

/-- C8: with an active session, a successful manual build replaces the chart
collection wholesale with the collaborator's returned collection while the
transcript is untouched; on failure the chart collection, the transcript and
the session identifier are unchanged and only an error is surfaced. -/
theorem manualChart_success_failure_frame (st : AppState)
    (p : ManualChartRequest) (m : Option String) (cs : List ChartIdea)
    (e : String) (h : st.sessionId.isSome) :
    (handleBuildManualChart st p (Except.ok ⟨m, some cs⟩)).charts = cs ∧
    (handleBuildManualChart st p (Except.ok ⟨m, some cs⟩)).history
        = st.history ∧
    (handleBuildManualChart st p (Except.error e)).charts = st.charts ∧
    (handleBuildManualChart st p (Except.error e)).history = st.history ∧
    (handleBuildManualChart st p (Except.error e)).sessionId = st.sessionId ∧
    (handleBuildManualChart st p (Except.error e)).error = some e := by
  rcases hsid : st.sessionId with _ | sid
  · rw [hsid] at h; simp at h
  · refine ⟨?_, ?_, ?_, ?_, ?_, ?_⟩ <;> simp [handleBuildManualChart, hsid]

/-- Witness for C8 at a concrete state with non-empty charts and transcript. -/
theorem manualChart_success_failure_frame_witness :
    (handleBuildManualChart stW sumNoValuePayload
        (Except.ok ⟨some "ok", some [lineIdea]⟩)).charts = [lineIdea] ∧
    (handleBuildManualChart stW sumNoValuePayload
        (Except.ok ⟨some "ok", some [lineIdea]⟩)).history = stW.history ∧
    (handleBuildManualChart stW sumNoValuePayload
        (Except.error "boom")).charts = stW.charts ∧
    (handleBuildManualChart stW sumNoValuePayload
        (Except.error "boom")).history = stW.history ∧
    (handleBuildManualChart stW sumNoValuePayload
        (Except.error "boom")).sessionId = stW.sessionId ∧
    (handleBuildManualChart stW sumNoValuePayload
        (Except.error "boom")).error = some "boom" :=
  manualChart_success_failure_frame stW sumNoValuePayload (some "ok")
    [lineIdea] "boom" rfl

/-- C9: the displayed preview is exactly the first 8 rows of the
collaborator-returned preview — a prefix of length at most 8, whatever the
returned length. -/
theorem preview_capped_to_first_eight (preview : List PreviewRow) :
    visiblePreview preview = preview.take 8 ∧
    (visiblePreview preview).length = min 8 preview.length ∧
    visiblePreview preview <+: preview :=
  ⟨rfl, by simp [visiblePreview], List.take_prefix 8 preview⟩

/-- C10: with an active session, a successful chat response whose `charts` or
`history` field is null/absent replaces the corresponding state with the
empty list (the prior local value is not retained), and a successful manual
build with an absent `charts` field yields an empty chart collection. -/
theorem absent_response_fields_default_to_empty (st : AppState)
    (msg reply : String) (p : ManualChartRequest) (m : Option String)
    (h : st.sessionId.isSome) :
    (handleSendMessage st msg (Except.ok ⟨reply, none, none⟩)).charts = [] ∧
    (handleSendMessage st msg (Except.ok ⟨reply, none, none⟩)).history = [] ∧
    (handleBuildManualChart st p (Except.ok ⟨m, none⟩)).charts = [] := by
  rcases hsid : st.sessionId with _ | sid
  · rw [hsid] at h; simp at h
  · refine ⟨?_, ?_, ?_⟩ <;>
      simp [handleSendMessage, handleBuildManualChart, hsid,
            sendMessageBegin, sendMessageSettle]

/-- Witness for C10 at a concrete state whose prior charts and transcript are
non-empty. -/
theorem absent_response_fields_default_to_empty_witness :
    (handleSendMessage stW "q" (Except.ok ⟨"r", none, none⟩)).charts = [] ∧
    (handleSendMessage stW "q" (Except.ok ⟨"r", none, none⟩)).history = [] ∧
    (handleBuildManualChart stW sumNoValuePayload
        (Except.ok ⟨none, none⟩)).charts = [] :=
  absent_response_fields_default_to_empty stW "q" "r" sumNoValuePayload none
    rfl

end ChartsAgent
